import Mathlib

/-!
UniNest: a shallow embedding of the Firestore/Storage security rules and
the data-access layer counter logic.

This file embeds, in Lean 4:

* the Firestore security rules (`firestore.rules`, collections `users`,
  `properties`, `reviews`, `bookingInterests`, `enrollments`),
* the Cloud Storage rules (`storage.rules`),
* the relevant data-access functions (`addReview`,
  `enrollStudentFromBookingInterest`, `removeEnrolledStudentFromProperty`,
  `checkOutStudentFromProperty`, `getPropertyById`,
  `getPropertyByIdSkipViewCount`),

and proves/refutes the specification's claims about them.

Documents are modelled as association lists from field names to Firestore
values; `request.resource.data` in an update is the full prospective
document (Firestore merge semantics), and
`diff(resource.data).affectedKeys()` is the set of keys whose values differ
between the old and the new document.  A rule expression that would raise an
evaluation error in Firestore (e.g. reading a missing field) denies the
request; the embedding returns `false` in those cases.
-/

namespace UniNest

/-- A primitive Firestore value, used for array elements.  No rule in the
repository inspects the elements of any array (only `is list` and
`size()`), so array elements that are themselves maps (e.g. the entries of
a property's `images` array) are represented by primitive stand-ins. -/
inductive Prim : Type where
  | str (s : String)
  | num (n : Int)
  | ts (t : Nat)
  | boolV (b : Bool)
  | nullV
  deriving DecidableEq

/-- A Firestore field value: string, (integer) number, timestamp, boolean,
null, or a list. -/
inductive FsValue : Type where
  | str (s : String)
  | num (n : Int)
  | ts (t : Nat)
  | boolV (b : Bool)
  | nullV
  | arr (vs : List Prim)
  deriving DecidableEq

/-- A document: an association list from field names to values (no duplicate
keys by construction in all inputs considered). -/
abbrev Doc := List (String × FsValue)

/-- Field lookup (first match). -/
def lookupF (d : Doc) (k : String) : Option FsValue :=
  match d with
  | [] => none
  | (k', v) :: rest => if k' = k then some v else lookupF rest k

/-- The keys of a document. -/
def docKeys (d : Doc) : List String := d.map Prod.fst

/-- Set a field to a value (Firestore `updateDoc` merge semantics for a
single field: replace if present, append otherwise). -/
def setField (d : Doc) (k : String) (v : FsValue) : Doc :=
  match d with
  | [] => [(k, v)]
  | (k', v') :: rest =>
      if k' = k then (k, v) :: rest else (k', v') :: setField rest k v

/-- Embeds `new.diff(old).affectedKeys()`: keys present in either document whose
values differ between the two. -/
def affectedKeys (newD oldD : Doc) : List String :=
  ((docKeys newD ++ docKeys oldD).dedup).filter
    (fun k => lookupF newD k != lookupF oldD k)

/-- Embeds `keys().hasOnly(allowed)` / `affectedKeys().hasOnly(allowed)`. -/
def hasOnly (ks allowed : List String) : Bool :=
  ks.all (fun k => allowed.contains k)

/-- Embeds `keys().hasAny(l)`. -/
def hasAny (ks l : List String) : Bool :=
  ks.any (fun k => l.contains k)

/-- Embeds `data.f is string`. -/
def isStringV : Option FsValue → Bool
  | some (.str _) => true
  | _ => false

/-- Embeds `data.f is number`. -/
def isNumberV : Option FsValue → Bool
  | some (.num _) => true
  | _ => false

/-- Embeds `data.f is timestamp`. -/
def isTimestampV : Option FsValue → Bool
  | some (.ts _) => true
  | _ => false

/-- Embeds `data.f is list`. -/
def isListV : Option FsValue → Bool
  | some (.arr _) => true
  | _ => false

/-- Embeds `data.f.size()` for a string field (only ever evaluated under an
`is string` guard; any other shape would error, hence deny). -/
def strSize : Option FsValue → Nat
  | some (.str s) => s.length
  | _ => 0

/-- Embeds `data.f.size()` for a list field (only ever evaluated under an
`is list` guard). -/
def listSize : Option FsValue → Nat
  | some (.arr vs) => vs.length
  | _ => 0

/-- Field-to-field equality `request.resource.data.f == resource.data.f`:
a missing field on either side is an evaluation error, hence deny. -/
def eqPresent (a b : Option FsValue) : Bool :=
  match a, b with
  | some x, some y => x == y
  | _, _ => false

/-- Numeric field comparison `new.f == old.f + d`: errors (hence denies)
unless both sides are numbers. -/
def numIncBy (newV oldV : Option FsValue) (d : Int) : Bool :=
  match newV, oldV with
  | some (.num b), some (.num a) => b = a + d
  | _, _ => false

/-- The evaluation context of one rule request: the requester's uid (`none`
when unauthenticated), the `role` field of `users/{request.auth.uid}` when
that document exists, and `request.time`. -/
structure RuleCtx where
  authUid : Option String
  userRole : Option String
  time : Nat
  deriving DecidableEq

/-- Embeds `isAuthenticated()`. -/
def isAuthenticated (ctx : RuleCtx) : Bool := ctx.authUid.isSome

/-- Embeds `hasRole(role)`: authenticated, the requester's user document exists and
its `role` field equals `role`.  (`ctx.userRole` is that field; `none` when
the user document does not exist.) -/
def hasRole (ctx : RuleCtx) (role : String) : Bool :=
  isAuthenticated ctx && ctx.userRole == some role

/-- Embeds `request.auth.uid == <string field f of doc>` (string comparison; a
missing field or unauthenticated requester denies). -/
def uidEqField (ctx : RuleCtx) (d : Doc) (k : String) : Bool :=
  match ctx.authUid with
  | some u => lookupF d k == some (.str u)
  | none => false

/-- Embeds `data.f >= a` / `data.f <= b` under an `is number` guard: the numeric
value of a field, defaulting to 0 (only used under `isNumberV` guards, where
the default is never reached). -/
def numVal : Option FsValue → Int
  | some (.num n) => n
  | _ => 0

/-- Embeds `request.resource.data.status in [s1, ...]` for a list of string
literals: membership is false for a non-string value, an absent field is an
evaluation error (deny). -/
def strValIn (v : Option FsValue) (l : List String) : Bool :=
  match v with
  | some (.str s) => l.contains s
  | _ => false

/-! ## `match /users/{userId}` -/

/-- The six student-only profile fields of a user document. -/
def studentOnlyFields : List String :=
  ["nationalId", "studentId", "nextOfKinName", "nextOfKinPhoneNumber",
   "nationalIdPhotoUrl", "studentIdPhotoUrl"]

/-- The full field allow-list of a user document (`keys().hasOnly`). -/
def userAllowedKeys : List String :=
  ["uid", "name", "email", "phoneNumber", "role", "profilePictureUrl",
   "nationalId", "studentId", "nextOfKinName", "nextOfKinPhoneNumber",
   "nationalIdPhotoUrl", "studentIdPhotoUrl", "savedPropertyIds"]

/-- Embeds `allow update` for `/users/{userId}` (firestore rules, users match
block): self-write only, `email`/`role`/`uid` must equal the stored values,
student-only fields require stored role `student`, `name` and `phoneNumber`
validity, optional URL fields must be strings when present, and the key set
is confined to `userAllowedKeys`. -/
def userUpdateAllowed (ctx : RuleCtx) (userId : String) (oldD newD : Doc) : Bool :=
  isAuthenticated ctx && ctx.authUid == some userId
  && eqPresent (lookupF newD "email") (lookupF oldD "email")
  && eqPresent (lookupF newD "role") (lookupF oldD "role")
  && eqPresent (lookupF newD "uid") (lookupF oldD "uid")
  && (!hasAny (docKeys newD) studentOnlyFields
      || lookupF oldD "role" == some (.str "student"))
  && (!(docKeys newD).contains "savedPropertyIds"
      || lookupF oldD "role" == some (.str "student"))
  && (isStringV (lookupF newD "name") && decide (0 < strSize (lookupF newD "name")))
  && (isStringV (lookupF newD "phoneNumber")
      && decide (10 ≤ strSize (lookupF newD "phoneNumber")))
  && (!(docKeys newD).contains "profilePictureUrl"
      || isStringV (lookupF newD "profilePictureUrl"))
  && (!(docKeys newD).contains "nationalIdPhotoUrl"
      || isStringV (lookupF newD "nationalIdPhotoUrl"))
  && (!(docKeys newD).contains "studentIdPhotoUrl"
      || isStringV (lookupF newD "studentIdPhotoUrl"))
  && hasOnly (docKeys newD) userAllowedKeys

/-! ## `match /properties/{propertyId}` -/

/-- Embeds `isPropertyOwner(propertyId)` evaluated during an update of that very
property: the `get()` returns the document being updated (it exists, since
the update targets it), so the check is `oldD.landlordId == request.auth.uid`. -/
def isPropertyOwner (ctx : RuleCtx) (oldD : Doc) : Bool :=
  uidEqField ctx oldD "landlordId"

/-- Embeds `isValidPropertyDataForCreate()` (firestore rules, properties match
block): per-field validity of the new property document, the four
zero-initialized counters, and `createdAt`/`updatedAt` equal to
`request.time`.  There is no `keys().hasOnly` clause. -/
def isValidPropertyDataForCreate (ctx : RuleCtx) (d : Doc) : Bool :=
  isStringV (lookupF d "name") && decide (0 < strSize (lookupF d "name"))
  && isStringV (lookupF d "address") && decide (0 < strSize (lookupF d "address"))
  && isStringV (lookupF d "city") && decide (0 < strSize (lookupF d "city"))
  && isStringV (lookupF d "suburb") && decide (0 < strSize (lookupF d "suburb"))
  && isStringV (lookupF d "description")
  && decide (20 ≤ strSize (lookupF d "description"))
  && isStringV (lookupF d "type")
  && isNumberV (lookupF d "capacity") && decide (1 ≤ numVal (lookupF d "capacity"))
  && isStringV (lookupF d "genderPreference")
  && isListV (lookupF d "amenities")
  && isNumberV (lookupF d "price") && decide (0 < numVal (lookupF d "price"))
  && isListV (lookupF d "availability")
  && isListV (lookupF d "images") && decide (0 < listSize (lookupF d "images"))
  && uidEqField ctx d "landlordId"
  && isStringV (lookupF d "landlordName")
  && isStringV (lookupF d "landlordEmail")
  && isStringV (lookupF d "landlordPhoneNumber")
  && lookupF d "viewCount" == some (.num 0)
  && lookupF d "interestedCount" == some (.num 0)
  && lookupF d "averageRating" == some (.num 0)
  && lookupF d "enrolledStudentsCount" == some (.num 0)
  && lookupF d "createdAt" == some (.ts ctx.time)
  && lookupF d "updatedAt" == some (.ts ctx.time)

/-- Embeds `allow create` for `/properties/{propertyId}`. -/
def propertyCreateAllowed (ctx : RuleCtx) (d : Doc) : Bool :=
  hasRole ctx "landlord" && isValidPropertyDataForCreate ctx d

/-- Embeds `isValidPropertyDataForUpdate()`: `name` and `address` validity,
`landlordId` and `createdAt` unchanged.  No affected-key restriction. -/
def isValidPropertyDataForUpdate (oldD newD : Doc) : Bool :=
  isStringV (lookupF newD "name") && decide (0 < strSize (lookupF newD "name"))
  && isStringV (lookupF newD "address")
  && decide (0 < strSize (lookupF newD "address"))
  && eqPresent (lookupF newD "landlordId") (lookupF oldD "landlordId")
  && eqPresent (lookupF newD "createdAt") (lookupF oldD "createdAt")

/-- Embeds `allow update` for `/properties/{propertyId}`: `updatedAt` must equal
`request.time`, then a disjunction of five cases (landlord full edit;
viewCount +1 by anyone authenticated; averageRating set by a student;
interestedCount +1 by a student; enrolledStudentsCount ±1 by the owner). -/
def propertyUpdateAllowed (ctx : RuleCtx) (oldD newD : Doc) : Bool :=
  isAuthenticated ctx
  && lookupF newD "updatedAt" == some (.ts ctx.time)
  && ( (isPropertyOwner ctx oldD && isValidPropertyDataForUpdate oldD newD)
    || (numIncBy (lookupF newD "viewCount") (lookupF oldD "viewCount") 1
        && hasOnly (affectedKeys newD oldD) ["viewCount", "updatedAt"])
    || (hasRole ctx "student"
        && isNumberV (lookupF newD "averageRating")
        && hasOnly (affectedKeys newD oldD) ["averageRating", "updatedAt"])
    || (hasRole ctx "student"
        && numIncBy (lookupF newD "interestedCount")
             (lookupF oldD "interestedCount") 1
        && hasOnly (affectedKeys newD oldD) ["interestedCount", "updatedAt"])
    || (isPropertyOwner ctx oldD
        && isNumberV (lookupF newD "enrolledStudentsCount")
        && (numIncBy (lookupF newD "enrolledStudentsCount")
              (lookupF oldD "enrolledStudentsCount") 1
            || numIncBy (lookupF newD "enrolledStudentsCount")
                 (lookupF oldD "enrolledStudentsCount") (-1))
        && hasOnly (affectedKeys newD oldD) ["enrolledStudentsCount", "updatedAt"]))

/-! ## `match /reviews/{reviewId}` -/

/-- Embeds `allow create` for `/reviews/{reviewId}`: authoring student, rating in
[1,5], non-empty comment, `date == request.time`.  The rule reads no other
review document: it imposes no duplicate-review restriction. -/
def reviewCreateAllowed (ctx : RuleCtx) (d : Doc) : Bool :=
  hasRole ctx "student"
  && uidEqField ctx d "studentId"
  && isStringV (lookupF d "propertyId")
  && isNumberV (lookupF d "rating")
  && decide (1 ≤ numVal (lookupF d "rating"))
  && decide (numVal (lookupF d "rating") ≤ 5)
  && isStringV (lookupF d "comment") && decide (0 < strSize (lookupF d "comment"))
  && isStringV (lookupF d "studentName")
  && lookupF d "date" == some (.ts ctx.time)

/-! ## `match /bookingInterests/{interestId}` -/

/-- A store of property documents keyed by document id (used by rules that
`get()` a property document). -/
abbrev PropStore := List (String × Doc)

/-- Store lookup by document id. -/
def getDocS (s : PropStore) (k : String) : Option Doc :=
  match s with
  | [] => none
  | (k', d) :: rest => if k' = k then some d else getDocS rest k

/-- Store update by document id (replace if present, append otherwise). -/
def setDocS (s : PropStore) (k : String) (d : Doc) : PropStore :=
  match s with
  | [] => [(k, d)]
  | (k', d') :: rest =>
      if k' = k then (k, d) :: rest else (k', d') :: setDocS rest k d

/-- Embeds `getPropertyDocument(resource.data.propertyId)`: `none` when the
`propertyId` field is not a string (evaluation error, deny) or the property
does not exist. -/
def interestPropertyDoc (props : PropStore) (oldD : Doc) : Option Doc :=
  match lookupF oldD "propertyId" with
  | some (.str pid) => getDocS props pid
  | _ => none

/-- Embeds `allow update` for `/bookingInterests/{interestId}`: `updatedAt` equal
to `request.time`; either the owning landlord moves `status` into one of
the four allow-listed values, or the owning student archives a non-accepted
interest; the diff is confined to `{status, updatedAt}`. -/
def bookingUpdateAllowed (ctx : RuleCtx) (props : PropStore) (oldD newD : Doc) : Bool :=
  isAuthenticated ctx
  && lookupF newD "updatedAt" == some (.ts ctx.time)
  && ( (hasRole ctx "landlord"
        && (match interestPropertyDoc props oldD with
            | some p => uidEqField ctx p "landlordId"
            | none => false)
        && strValIn (lookupF newD "status")
             ["contacted", "rejected", "accepted", "archived"])
     || (uidEqField ctx oldD "studentId"
         && lookupF newD "status" == some (.str "archived")
         && (match lookupF oldD "status" with
             | some v => v != .str "accepted"
             | none => false)))
  && hasOnly (affectedKeys newD oldD) ["status", "updatedAt"]

/-! ## `match /enrollments/{enrollmentId}` -/

/-- Embeds `allow update` for `/enrollments/{enrollmentId}`: the owning landlord
may touch only the four schedule fields; the owning student may only flip
`isActive` from stored `true` to `false` with `actualCheckoutDate` stamped
to `request.time` and the diff confined to
`{isActive, actualCheckoutDate}`. -/
def enrollmentUpdateAllowed (ctx : RuleCtx) (oldD newD : Doc) : Bool :=
  isAuthenticated ctx
  && ( (hasRole ctx "landlord" && uidEqField ctx oldD "landlordId"
        && hasOnly (affectedKeys newD oldD)
             ["studentName", "checkInDate", "rentDueDate", "checkOutDate"])
     || (uidEqField ctx oldD "studentId"
         && lookupF oldD "isActive" == some (.boolV true)
         && lookupF newD "isActive" == some (.boolV false)
         && lookupF newD "actualCheckoutDate" == some (.ts ctx.time)
         && hasOnly (affectedKeys newD oldD) ["isActive", "actualCheckoutDate"]))

/-! ## Storage rules (`storage.rules`) -/

/-- One storage request: requester uid (if authenticated), upload size in
bytes, and content type. -/
structure StorageReq where
  authUid : Option String
  size : Int
  contentType : String
  deriving DecidableEq

/-- Embeds `contentType.matches('image/.*')`: a full regex match, i.e. the content
type starts with `image/`. -/
def isImageType (ct : String) : Bool := ct.startsWith "image/"

/-- Embeds `allow read` over all storage match blocks (rules version 2; the
recursive wildcard `{allPaths=**}` matches zero or more segments; a request
is allowed when some matching block allows it, and the catch-all block
allows nothing). -/
def storageReadAllowed (path : List String) (auth : Option String) : Bool :=
  match path with
  | "propertyImages" :: _landlordId :: _propertyId :: _rest => true
  | "userDocs" :: studentId :: _docType :: _rest => auth == some studentId
  | "profilePictures" :: _userId :: _rest => true
  | _ => false

/-- Embeds `allow write` over all storage match blocks. -/
def storageWriteAllowed (path : List String) (req : StorageReq) : Bool :=
  match path with
  | "propertyImages" :: landlordId :: _propertyId :: _rest =>
      req.authUid == some landlordId
      && decide (req.size < 5 * 1024 * 1024)
      && isImageType req.contentType
  | "userDocs" :: studentId :: docType :: _rest =>
      req.authUid == some studentId
      && decide (req.size < 5 * 1024 * 1024)
      && (isImageType req.contentType || req.contentType == "application/pdf")
      && (docType == "nationalId" || docType == "studentId")
  | "profilePictures" :: userId :: _rest =>
      req.authUid == some userId
      && decide (req.size < 2 * 1024 * 1024)
      && isImageType req.contentType
  | _ => false

/-! ## Data-access layer (`src/lib/data.ts`, `src/unnamed/part_006`) -/

/-- JavaScript `(x || 0)` applied to a numeric-or-absent document field (the
only shapes the data layer ever stores in the counter fields). -/
def jsNumOr0 (v : Option FsValue) : Int :=
  match v with
  | some (.num n) => n
  | _ => 0

/-- The property-document update performed by
`enrollStudentFromBookingInterest` inside its batch:
`enrolledStudentsCount := (cur || 0) + 1`,
`interestedCount := Math.max(0, (cur || 0) - 1)`, `updatedAt := now`. -/
def enrollInterestCounterUpdate (p : Doc) (now : Nat) : Doc :=
  setField (setField (setField p
    "enrolledStudentsCount"
      (.num (jsNumOr0 (lookupF p "enrolledStudentsCount") + 1)))
    "interestedCount"
      (.num (max 0 (jsNumOr0 (lookupF p "interestedCount") - 1))))
    "updatedAt" (.ts now)

/-- The property-document update performed by
`removeEnrolledStudentFromProperty` inside its batch:
`enrolledStudentsCount := Math.max(0, (cur || 0) - 1)`, `updatedAt := now`. -/
def removeEnrolledCounterUpdate (p : Doc) (now : Nat) : Doc :=
  setField (setField p
    "enrolledStudentsCount"
      (.num (max 0 (jsNumOr0 (lookupF p "enrolledStudentsCount") - 1))))
    "updatedAt" (.ts now)

/-- The property-document update performed by `checkOutStudentFromProperty`
inside its batch (same formula as removal, written separately in the
source): `enrolledStudentsCount := Math.max(0, (cur || 0) - 1)`,
`updatedAt := now`. -/
def checkOutCounterUpdate (p : Doc) (now : Nat) : Doc :=
  setField (setField p
    "enrolledStudentsCount"
      (.num (max 0 (jsNumOr0 (lookupF p "enrolledStudentsCount") - 1))))
    "updatedAt" (.ts now)

/-- A stored review document. -/
structure ReviewDoc where
  studentId : String
  propertyId : String
  studentName : String
  rating : Int
  comment : String
  date : Nat
  deriving DecidableEq

/-- The input of `addReview` (`Omit<Review, 'id' | 'date'>`). -/
structure ReviewInput where
  studentId : String
  propertyId : String
  studentName : String
  rating : Int
  comment : String
  deriving DecidableEq

/-- Embeds `addReview` restricted to its effect on the reviews collection: reject
an empty `studentId`/`propertyId` (falsy check), reject when a review with
the same `propertyId` and `studentId` already exists, otherwise append the
new review stamped with the current time.  (The subsequent recomputation of
the property's `averageRating` touches the property document, not the
reviews collection, and is not modelled here.) -/
def addReview (rs : List ReviewDoc) (inp : ReviewInput) (now : Nat) :
    Except String (List ReviewDoc) :=
  if inp.studentId = "" || inp.propertyId = "" then
    .error "Student ID and Property ID are required to post a review."
  else if rs.any (fun r =>
      r.propertyId == inp.propertyId && r.studentId == inp.studentId) then
    .error "You have already reviewed this property."
  else
    .ok (rs ++ [⟨inp.studentId, inp.propertyId, inp.studentName,
                 inp.rating, inp.comment, now⟩])

/-- Embeds `getPropertyById`: returns `null` for a falsy id or a missing document;
otherwise writes `viewCount := (cur || 0) + 1` and `updatedAt := now` into
the stored document and returns the updated document (the source re-reads
the document after the write; timestamp-to-date conversion is the identity
in this model). -/
def getPropertyById (s : PropStore) (id : String) (now : Nat) :
    PropStore × Option Doc :=
  if id = "" then (s, none)
  else
    match getDocS s id with
    | some d =>
        let d' := setField (setField d
          "viewCount" (.num (jsNumOr0 (lookupF d "viewCount") + 1)))
          "updatedAt" (.ts now)
        (setDocS s id d', some d')
    | none => (s, none)

/-- Embeds `getPropertyByIdSkipViewCount`: returns the stored document unchanged,
or `null` for a falsy id or a missing document; performs no write. -/
def getPropertyByIdSkipViewCount (s : PropStore) (id : String) : Option Doc :=
  if id = "" then none else getDocS s id

/-! ## Specification-side storage policy (for the refinement claim C8)

These two predicates follow the wording of the specification's §6 path
policies (with the size bounds stated strictly, as the rules enforce them),
to be compared with the rule functions above. -/

/-- Spec §6, read side: `propertyImages/{landlordId}/{propertyId}/*` and
`profilePictures/{userId}/*` are publicly readable;
`userDocs/{userId}/{docType}/*` is readable only by the owner; every other
path denies. -/
def specStorageRead (path : List String) (auth : Option String) : Prop :=
  (∃ l p rest, path = "propertyImages" :: l :: p :: rest)
  ∨ (∃ u d rest, path = "userDocs" :: u :: d :: rest ∧ auth = some u)
  ∨ (∃ u rest, path = "profilePictures" :: u :: rest)

/-- Spec §6, write side: owner-only writes with the content-type
restrictions, sizes strictly below 5MB (property images, user documents)
resp. 2MB (profile pictures), and the user-document folder confined to
`nationalId`/`studentId`; every other path denies. -/
def specStorageWrite (path : List String) (req : StorageReq) : Prop :=
  (∃ l p rest, path = "propertyImages" :: l :: p :: rest
     ∧ req.authUid = some l ∧ req.size < 5 * 1024 * 1024
     ∧ isImageType req.contentType = true)
  ∨ (∃ u d rest, path = "userDocs" :: u :: d :: rest
     ∧ req.authUid = some u ∧ req.size < 5 * 1024 * 1024
     ∧ (isImageType req.contentType = true ∨ req.contentType = "application/pdf")
     ∧ (d = "nationalId" ∨ d = "studentId"))
  ∨ (∃ u rest, path = "profilePictures" :: u :: rest
     ∧ req.authUid = some u ∧ req.size < 2 * 1024 * 1024
     ∧ isImageType req.contentType = true)

/-! ## Concrete scenario documents used by counterexamples and witnesses -/

/-- A stored property document owned by landlord `L1`. -/
def sampleProp : Doc :=
  [("name", .str "Sunny Flat"), ("address", .str "1 Main St"),
   ("landlordId", .str "L1"), ("createdAt", .ts 1), ("updatedAt", .ts 2),
   ("viewCount", .num 3), ("interestedCount", .num 2),
   ("averageRating", .num 4), ("enrolledStudentsCount", .num 1)]

/-- A student requester (uid `stu1`, role `student`) at request time 5. -/
def ctxStudent5 : RuleCtx := ⟨some "stu1", some "student", 5⟩

/-- The same student requester at request time 7. -/
def ctxStudent7 : RuleCtx := ⟨some "stu1", some "student", 7⟩

/-- The owning landlord requester (uid `L1`, role `landlord`) at time 9. -/
def ctxLandlord9 : RuleCtx := ⟨some "L1", some "landlord", 9⟩

/-- Scenario: `sampleProp` resubmitted unchanged except `updatedAt := request.time`:
its diff affects only `updatedAt`. -/
def samplePropTouch : Doc := setField sampleProp "updatedAt" (.ts 5)

/-- Scenario: `sampleProp` with `enrolledStudentsCount` raised from 1 to 3 (a +2
change) and `updatedAt := request.time`, as submitted by the landlord. -/
def samplePropPlus2 : Doc :=
  setField (setField sampleProp "enrolledStudentsCount" (.num 3))
    "updatedAt" (.ts 9)

/-- A stored property document with no `name` field (so a full landlord
edit of it is invalid), used to exercise the counter-shape path. -/
def samplePropNoName : Doc :=
  [("landlordId", .str "L1"), ("createdAt", .ts 1), ("updatedAt", .ts 2),
   ("enrolledStudentsCount", .num 1)]

/-- Scenario: `samplePropNoName` with `enrolledStudentsCount` raised by exactly 1. -/
def samplePropNoNamePlus1 : Doc :=
  setField (setField samplePropNoName "enrolledStudentsCount" (.num 2))
    "updatedAt" (.ts 9)

/-- A stored user document for student `stu1`. -/
def sampleUser : Doc :=
  [("uid", .str "stu1"), ("name", .str "Ann"), ("email", .str "a@x.com"),
   ("phoneNumber", .str "0123456789"), ("role", .str "student")]

/-- Scenario: `sampleUser` with only the display name changed. -/
def sampleUserRenamed : Doc := setField sampleUser "name" (.str "Anna")

/-- A pending booking interest of student `stu1`. -/
def sampleInterestPending : Doc :=
  [("studentId", .str "stu1"), ("propertyId", .str "p1"),
   ("status", .str "pending"), ("updatedAt", .ts 2)]

/-- Scenario: `sampleInterestPending` archived by the student at time 7. -/
def sampleInterestPendingArchived : Doc :=
  setField (setField sampleInterestPending "status" (.str "archived"))
    "updatedAt" (.ts 7)

/-- An active enrollment of student `stu1` under landlord `L1`. -/
def sampleEnrollment : Doc :=
  [("studentId", .str "stu1"), ("landlordId", .str "L1"),
   ("isActive", .boolV true), ("checkInDate", .ts 1)]

/-- Scenario: `sampleEnrollment` checked out by the student at time 7. -/
def sampleEnrollmentCheckedOut : Doc :=
  setField (setField sampleEnrollment "isActive" (.boolV false))
    "actualCheckoutDate" (.ts 7)

/-- A property-creation payload that passes every per-field check (all four
counters zero, timestamps equal to request time 9) and additionally carries
an unrelated extra field. -/
def samplePropCreatePayload : Doc :=
  [("name", .str "Sunny Flat"), ("address", .str "1 Main St"),
   ("city", .str "Harare"), ("suburb", .str "Avenues"),
   ("description", .str "A lovely place to stay near campus."),
   ("type", .str "Apartment"), ("capacity", .num 2),
   ("genderPreference", .str "Any"), ("amenities", .arr []),
   ("price", .num 100), ("availability", .arr []),
   ("images", .arr [.str "img1"]), ("landlordId", .str "L1"),
   ("landlordName", .str "Lena"), ("landlordEmail", .str "l@x.com"),
   ("landlordPhoneNumber", .str "0123456789"),
   ("viewCount", .num 0), ("interestedCount", .num 0),
   ("averageRating", .num 0), ("enrolledStudentsCount", .num 0),
   ("createdAt", .ts 9), ("updatedAt", .ts 9),
   ("extraField", .boolV true)]

/-- An existing review by student `stu1` on property `p1`. -/
def sampleExistingReviews : List ReviewDoc :=
  [⟨"stu1", "p1", "Ann", 4, "Nice place", 3⟩]

/-- A duplicate review submission by the same student on the same
property. -/
def sampleDupReviewInput : ReviewInput := ⟨"stu1", "p1", "Ann", 5, "Still nice"⟩

/-- The duplicate review as a rule-level create payload at time 7. -/
def sampleDupReviewPayload : Doc :=
  [("studentId", .str "stu1"), ("propertyId", .str "p1"),
   ("rating", .num 5), ("comment", .str "Still nice"),
   ("studentName", .str "Ann"), ("date", .ts 7)]

/-- A one-property store holding `sampleProp` under id `p1`. -/
def sampleStore : PropStore := [("p1", sampleProp)]

end UniNest

namespace UniNest

/-! ## Helper lemmas -/

theorem eqPresent_eq {a b : Option FsValue} (h : eqPresent a b = true) :
    a = b := by
  cases a <;> cases b <;> simp_all [eqPresent]

theorem mem_docKeys_of_lookupF {d : Doc} {k : String} {v : FsValue}
    (h : lookupF d k = some v) : k ∈ docKeys d := by
  induction d with
  | nil => simp [lookupF] at h
  | cons hd tl ih =>
    obtain ⟨k', v'⟩ := hd
    by_cases hk : k' = k
    · subst hk; simp [docKeys]
    · simp only [lookupF, if_neg hk] at h
      simp [docKeys]
      exact Or.inr (by simpa [docKeys] using ih h)

theorem mem_affectedKeys_of_ne {newD oldD : Doc} {k : String}
    (h : lookupF newD k ≠ lookupF oldD k) : k ∈ affectedKeys newD oldD := by
  have hmem : k ∈ docKeys newD ∨ k ∈ docKeys oldD := by
    cases hn : lookupF newD k with
    | some v => exact Or.inl (mem_docKeys_of_lookupF hn)
    | none =>
      cases ho : lookupF oldD k with
      | some w => exact Or.inr (mem_docKeys_of_lookupF ho)
      | none => exact absurd (hn.trans ho.symm) h
  simp only [affectedKeys, List.mem_filter, List.mem_dedup, List.mem_append]
  exact ⟨hmem, by simpa [bne_iff_ne] using h⟩

theorem hasOnly_mem {ks allowed : List String} {k : String}
    (h : hasOnly ks allowed = true) (hk : k ∈ ks) : k ∈ allowed := by
  simp only [hasOnly, List.all_eq_true] at h
  simpa using h k hk

theorem lookupF_setField_self (d : Doc) (k : String) (v : FsValue) :
    lookupF (setField d k v) k = some v := by
  induction d with
  | nil => simp [setField, lookupF]
  | cons hd tl ih =>
    obtain ⟨k', v'⟩ := hd
    by_cases hk : k' = k
    · subst hk; simp [setField, lookupF]
    · simp [setField, lookupF, hk, ih]

theorem lookupF_setField_ne (d : Doc) {k k' : String} (v : FsValue)
    (h : k' ≠ k) : lookupF (setField d k v) k' = lookupF d k' := by
  induction d with
  | nil => simp [setField, lookupF, Ne.symm h]
  | cons hd tl ih =>
    obtain ⟨k₀, v₀⟩ := hd
    by_cases hk : k₀ = k
    · subst hk
      simp [setField, lookupF, Ne.symm h]
    · by_cases hk' : k₀ = k'
      · subst hk'; simp [setField, lookupF, hk]
      · simp [setField, lookupF, hk, hk', ih]

theorem getDocS_setDocS_self (s : PropStore) (k : String) (d : Doc) :
    getDocS (setDocS s k d) k = some d := by
  induction s with
  | nil => simp [setDocS, getDocS]
  | cons hd tl ih =>
    obtain ⟨k', d'⟩ := hd
    by_cases hk : k' = k
    · subst hk; simp [setDocS, getDocS]
    · simp [setDocS, getDocS, hk, ih]

theorem getDocS_setDocS_ne (s : PropStore) {k k' : String} (d : Doc)
    (h : k' ≠ k) : getDocS (setDocS s k d) k' = getDocS s k' := by
  induction s with
  | nil => simp [setDocS, getDocS, Ne.symm h]
  | cons hd tl ih =>
    obtain ⟨k₀, d₀⟩ := hd
    by_cases hk : k₀ = k
    · subst hk
      simp [setDocS, getDocS, Ne.symm h]
    · by_cases hk' : k₀ = k'
      · subst hk'; simp [setDocS, getDocS, hk]
      · simp [setDocS, getDocS, hk, hk', ih]

/-! ## Claim theorems -/

/-- C3: for every accepted update of a user's own document, the submitted
`role`, `uid` and `email` equal the currently stored values — a student can
never change any of them to a different value (proved for every requester,
students included). -/
theorem userUpdate_identity_immutable (ctx : RuleCtx) (userId : String)
    (oldD newD : Doc) (h : userUpdateAllowed ctx userId oldD newD = true) :
    lookupF newD "role" = lookupF oldD "role"
    ∧ lookupF newD "uid" = lookupF oldD "uid"
    ∧ lookupF newD "email" = lookupF oldD "email" := by
  simp only [userUpdateAllowed, Bool.and_eq_true] at h
  obtain ⟨⟨⟨⟨⟨⟨⟨⟨⟨⟨⟨⟨-, -⟩, hemail⟩, hrole⟩, huid⟩, -⟩, -⟩, -⟩, -⟩, -⟩,
    -⟩, -⟩, -⟩ := h
  exact ⟨eqPresent_eq hrole, eqPresent_eq huid, eqPresent_eq hemail⟩

/-- Witness for C3: a student's name-only self-update is accepted, and the
theorem applies to it. -/
theorem userUpdate_identity_immutable_witness :
    lookupF sampleUserRenamed "role" = lookupF sampleUser "role"
    ∧ lookupF sampleUserRenamed "uid" = lookupF sampleUser "uid"
    ∧ lookupF sampleUserRenamed "email" = lookupF sampleUser "email" :=
  userUpdate_identity_immutable ctxStudent5 "stu1" sampleUser sampleUserRenamed
    (by decide)

/-- C9: every counter decrement performed by the data-access layer is
clamped at zero — `enrollStudentFromBookingInterest` (interestedCount),
`removeEnrolledStudentFromProperty` and `checkOutStudentFromProperty`
(enrolledStudentsCount) each write `max 0 (current - 1)`, which is never
negative, for every starting document. -/
theorem counterDecrements_clamped (p : Doc) (now : Nat) :
    (∃ v, lookupF (enrollInterestCounterUpdate p now) "interestedCount"
          = some (.num v)
        ∧ v = max 0 (jsNumOr0 (lookupF p "interestedCount") - 1) ∧ 0 ≤ v)
    ∧ (∃ v, lookupF (removeEnrolledCounterUpdate p now) "enrolledStudentsCount"
          = some (.num v)
        ∧ v = max 0 (jsNumOr0 (lookupF p "enrolledStudentsCount") - 1) ∧ 0 ≤ v)
    ∧ (∃ v, lookupF (checkOutCounterUpdate p now) "enrolledStudentsCount"
          = some (.num v)
        ∧ v = max 0 (jsNumOr0 (lookupF p "enrolledStudentsCount") - 1) ∧ 0 ≤ v) := by
  refine ⟨⟨_, ?_, rfl, le_max_left 0 _⟩, ⟨_, ?_, rfl, le_max_left 0 _⟩,
    ⟨_, ?_, rfl, le_max_left 0 _⟩⟩
  · rw [enrollInterestCounterUpdate, lookupF_setField_ne _ _ (by decide),
      lookupF_setField_self]
  · rw [removeEnrolledCounterUpdate, lookupF_setField_ne _ _ (by decide),
      lookupF_setField_self]
  · rw [checkOutCounterUpdate, lookupF_setField_ne _ _ (by decide),
      lookupF_setField_self]

/-- C10: `getPropertyById` mutates stored state — for every existing
property with a numeric view count it increments the stored `viewCount` by
one, touches only `viewCount` and `updatedAt` (in the document, and only
that document in the store), and returns the updated document;
`getPropertyByIdSkipViewCount` returns the stored fields unchanged; both
return null for a non-existent id. -/
theorem getPropertyById_increments_viewCount :
    (∀ (s : PropStore) (id : String) (now : Nat) (d : Doc) (n : Int),
       id ≠ "" → getDocS s id = some d →
       lookupF d "viewCount" = some (.num n) →
       ∃ d', getPropertyById s id now = (setDocS s id d', some d')
         ∧ lookupF d' "viewCount" = some (.num (n + 1))
         ∧ lookupF d' "updatedAt" = some (.ts now)
         ∧ (∀ k, k ≠ "viewCount" → k ≠ "updatedAt" → lookupF d' k = lookupF d k)
         ∧ (∀ id2, id2 ≠ id → getDocS (setDocS s id d') id2 = getDocS s id2)
         ∧ getPropertyByIdSkipViewCount s id = some d)
    ∧ (∀ (s : PropStore) (id : String) (now : Nat),
       getDocS s id = none →
       getPropertyById s id now = (s, none)
       ∧ getPropertyByIdSkipViewCount s id = none) := by
  constructor
  · intro s id now d n hid hd hv
    refine ⟨setField (setField d "viewCount" (.num (n + 1))) "updatedAt" (.ts now),
      ?_, ?_, ?_, ?_, ?_, ?_⟩
    · simp [getPropertyById, hid, hd, hv, jsNumOr0]
    · rw [lookupF_setField_ne _ _ (by decide), lookupF_setField_self]
    · rw [lookupF_setField_self]
    · intro k hk1 hk2
      rw [lookupF_setField_ne _ _ hk2, lookupF_setField_ne _ _ hk1]
    · intro id2 h2
      exact getDocS_setDocS_ne s _ h2
    · simp [getPropertyByIdSkipViewCount, hid, hd]
  · intro s id now h
    by_cases hid : id = "" <;>
      simp [getPropertyById, getPropertyByIdSkipViewCount, hid, h]

/-- C1 counterexample: the claim that the affected-key set of every
accepted property update must exactly equal one of the five allow-listed
shapes is false — a student resubmitting a property unchanged except for
`updatedAt := request.time` is accepted (via the averageRating case, whose
`hasOnly` check only bounds the key set from above), although its
affected-key set `{updatedAt}` equals none of the five shapes and the
requester is not the owning landlord. -/
theorem propertyUpdate_shape_equality_counterexample :
    propertyUpdateAllowed ctxStudent5 sampleProp samplePropTouch = true
    ∧ affectedKeys samplePropTouch sampleProp = ["updatedAt"]
    ∧ isPropertyOwner ctxStudent5 sampleProp = false
    ∧ affectedKeys samplePropTouch sampleProp ≠ ["viewCount", "updatedAt"]
    ∧ affectedKeys samplePropTouch sampleProp ≠ ["averageRating", "updatedAt"]
    ∧ affectedKeys samplePropTouch sampleProp ≠ ["interestedCount", "updatedAt"]
    ∧ affectedKeys samplePropTouch sampleProp
        ≠ ["enrolledStudentsCount", "updatedAt"] := by decide

/-- C1 (amended): every accepted property update that is not a landlord
full edit has its affected-key set CONTAINED IN (not necessarily equal to)
one of the four counter/rating shapes; extra keys are rejected, missing
keys are not, and the landlord full-edit case carries no affected-key
restriction at all. -/
theorem propertyUpdate_affectedKeys_confined (ctx : RuleCtx) (oldD newD : Doc)
    (h : propertyUpdateAllowed ctx oldD newD = true)
    (hnotfull : (isPropertyOwner ctx oldD
        && isValidPropertyDataForUpdate oldD newD) = false) :
    hasOnly (affectedKeys newD oldD) ["viewCount", "updatedAt"] = true
    ∨ hasOnly (affectedKeys newD oldD) ["averageRating", "updatedAt"] = true
    ∨ hasOnly (affectedKeys newD oldD) ["interestedCount", "updatedAt"] = true
    ∨ hasOnly (affectedKeys newD oldD)
        ["enrolledStudentsCount", "updatedAt"] = true := by
  simp only [propertyUpdateAllowed, Bool.and_eq_true, Bool.or_eq_true] at h
  obtain ⟨⟨-, -⟩, hcases⟩ := h
  rcases hcases with ((((h1 | h2) | h3) | h4) | h5)
  · exfalso
    have hfull : (isPropertyOwner ctx oldD
        && isValidPropertyDataForUpdate oldD newD) = true := by
      rw [Bool.and_eq_true]; exact h1
    rw [hnotfull] at hfull
    exact Bool.false_ne_true hfull
  · exact Or.inl h2.2
  · exact Or.inr (Or.inl h3.2)
  · exact Or.inr (Or.inr (Or.inl h4.2))
  · exact Or.inr (Or.inr (Or.inr h5.2))

/-- Witness for the amended C1: the student's `{updatedAt}`-only update is
accepted and its affected-key set is contained in the averageRating
shape. -/
theorem propertyUpdate_affectedKeys_confined_witness :
    hasOnly (affectedKeys samplePropTouch sampleProp)
        ["viewCount", "updatedAt"] = true
    ∨ hasOnly (affectedKeys samplePropTouch sampleProp)
        ["averageRating", "updatedAt"] = true
    ∨ hasOnly (affectedKeys samplePropTouch sampleProp)
        ["interestedCount", "updatedAt"] = true
    ∨ hasOnly (affectedKeys samplePropTouch sampleProp)
        ["enrolledStudentsCount", "updatedAt"] = true :=
  propertyUpdate_affectedKeys_confined ctxStudent5 sampleProp samplePropTouch
    (by decide) (by decide)

/-- C2 counterexample: the claim that the rule set rejects every owning
landlord's single write changing `enrolledStudentsCount` by 2 is false —
the landlord full-edit case has no counter restriction, so the owning
landlord raising `enrolledStudentsCount` from 1 to 3 in one write (with
valid name/address, `landlordId`/`createdAt` unchanged and
`updatedAt = request.time`) is accepted. -/
theorem enrolledCount_plus_two_counterexample :
    propertyUpdateAllowed ctxLandlord9 sampleProp samplePropPlus2 = true
    ∧ lookupF sampleProp "enrolledStudentsCount" = some (.num 1)
    ∧ lookupF samplePropPlus2 "enrolledStudentsCount" = some (.num 3)
    ∧ isPropertyOwner ctxLandlord9 sampleProp = true
    ∧ ctxLandlord9.userRole = some "landlord" := by decide

/-- C2 (amended): every accepted property update that changes
`enrolledStudentsCount` and is not a valid whole-object landlord edit
changes it by exactly ±1 (the dedicated counter shape only permits ±1; the
other counter shapes cannot touch it at all). -/
theorem enrolledCount_change_is_pm_one (ctx : RuleCtx) (oldD newD : Doc)
    (a b : Int) (h : propertyUpdateAllowed ctx oldD newD = true)
    (hnotfull : (isPropertyOwner ctx oldD
        && isValidPropertyDataForUpdate oldD newD) = false)
    (ha : lookupF oldD "enrolledStudentsCount" = some (.num a))
    (hb : lookupF newD "enrolledStudentsCount" = some (.num b))
    (hne : b ≠ a) : b = a + 1 ∨ b = a - 1 := by
  have hmem : "enrolledStudentsCount" ∈ affectedKeys newD oldD := by
    refine mem_affectedKeys_of_ne ?_
    rw [ha, hb]
    simp [hne]
  simp only [propertyUpdateAllowed, Bool.and_eq_true, Bool.or_eq_true] at h
  obtain ⟨⟨-, -⟩, hcases⟩ := h
  rcases hcases with ((((h1 | h2) | h3) | h4) | h5)
  · exfalso
    have hfull : (isPropertyOwner ctx oldD
        && isValidPropertyDataForUpdate oldD newD) = true := by
      rw [Bool.and_eq_true]; exact h1
    rw [hnotfull] at hfull
    exact Bool.false_ne_true hfull
  · exact absurd (hasOnly_mem h2.2 hmem) (by decide)
  · exact absurd (hasOnly_mem h3.2 hmem) (by decide)
  · exact absurd (hasOnly_mem h4.2 hmem) (by decide)
  · obtain ⟨⟨-, hor⟩, -⟩ := h5
    rcases hor with hp | hm
    · simp only [numIncBy, ha, hb, decide_eq_true_eq] at hp
      exact Or.inl hp
    · simp only [numIncBy, ha, hb, decide_eq_true_eq] at hm
      right
      omega

/-- Witness for the amended C2: the owning landlord raising
`enrolledStudentsCount` from 1 to 2 through the counter shape (the stored
document has no `name`, so the full-edit case does not apply). -/
theorem enrolledCount_change_is_pm_one_witness :
    (2 : Int) = 1 + 1 ∨ (2 : Int) = 1 - 1 :=
  enrolledCount_change_is_pm_one ctxLandlord9 samplePropNoName
    samplePropNoNamePlus1 1 2 (by decide) (by decide) (by decide) (by decide)
    (by decide)

/-- The read decision of the storage rules coincides with the (amended)
spec-side read policy. -/
theorem storageRead_iff (path : List String) (auth : Option String) :
    storageReadAllowed path auth = true ↔ specStorageRead path auth := by
  rw [storageReadAllowed.eq_def]
  split
  · simp [specStorageRead]
  · rename_i sid dt rest
    simp [specStorageRead, beq_iff_eq]
  · rename_i uid rest
    simp [specStorageRead]
  · rename_i hnp hud hpp
    simp only [specStorageRead]
    constructor
    · intro h; exact absurd h (by simp)
    · rintro (⟨l, p, rest, rfl⟩ | ⟨u, d, rest, rfl, -⟩ | ⟨u, rest, rfl⟩)
      · exact absurd rfl (hnp l p rest)
      · exact absurd rfl (hud u d rest)
      · exact absurd rfl (hpp u rest)

/-- The write decision of the storage rules coincides with the (amended)
spec-side write policy. -/
theorem storageWrite_iff (path : List String) (req : StorageReq) :
    storageWriteAllowed path req = true ↔ specStorageWrite path req := by
  rw [storageWriteAllowed.eq_def]
  split
  · rename_i lid pid rest
    simp [specStorageWrite, beq_iff_eq, and_assoc]
  · rename_i sid dt rest
    simp [specStorageWrite, beq_iff_eq, and_assoc]
  · rename_i uid rest
    simp [specStorageWrite, beq_iff_eq, and_assoc]
  · rename_i hnp hud hpp
    simp only [specStorageWrite]
    constructor
    · intro h; exact absurd h (by simp)
    · rintro (⟨l, p, rest, rfl, -⟩ | ⟨u, d, rest, rfl, -⟩ | ⟨u, rest, rfl, -⟩)
      · exact absurd rfl (hnp l p rest)
      · exact absurd rfl (hud u d rest)
      · exact absurd rfl (hpp u rest)

/-- C8 counterexample: two points where the claim as stated fails on the
rules — (1) a 5MB image upload by the owning landlord is REJECTED (the
rules demand size strictly below 5MB, the claim says "≤5MB"); (2) an owner
read under `userDocs/{userId}/{docType}/*` with a `docType` other than
`nationalId`/`studentId` is ALLOWED (the read rule does not constrain the
folder name), although per the claim every path outside the three listed
patterns denies. -/
theorem storageRules_counterexample :
    storageWriteAllowed ["propertyImages", "L1", "P1", "photo.png"]
      ⟨some "L1", 5 * 1024 * 1024, "image/png"⟩ = false
    ∧ storageReadAllowed ["userDocs", "u1", "leaseAgreement", "f.pdf"]
        (some "u1") = true := by decide

/-- C8 (amended): the storage rules enforce exactly the stated path
policies with sizes strictly below 5MB resp. 2MB, and with
`userDocs/{userId}` readable by the owner for every sub-folder (the
`nationalId`/`studentId` restriction applies to writes only); every path
outside the three patterns denies both read and write. -/
theorem storageRules_policy (path : List String) (auth : Option String)
    (req : StorageReq) :
    (storageReadAllowed path auth = true ↔ specStorageRead path auth)
    ∧ (storageWriteAllowed path req = true ↔ specStorageWrite path req) :=
  ⟨storageRead_iff path auth, storageWrite_iff path req⟩

/-- C4: for a booking-interest update by the owning student (who does not
hold the landlord role), with `status` set to `archived`, `updatedAt`
stamped to the request time and the diff confined to
`{status, updatedAt}`, the update is accepted exactly when the stored
status is not `accepted`. -/
theorem bookingInterest_student_archival (ctx : RuleCtx) (props : PropStore)
    (oldD newD : Doc) (u s : String)
    (hu : ctx.authUid = some u)
    (hrole : ctx.userRole ≠ some "landlord")
    (hstu : lookupF oldD "studentId" = some (.str u))
    (hnew : lookupF newD "status" = some (.str "archived"))
    (hup : lookupF newD "updatedAt" = some (.ts ctx.time))
    (hkeys : hasOnly (affectedKeys newD oldD) ["status", "updatedAt"] = true)
    (hold : lookupF oldD "status" = some (.str s)) :
    bookingUpdateAllowed ctx props oldD newD = true ↔ s ≠ "accepted" := by
  simp [bookingUpdateAllowed, isAuthenticated, hasRole, uidEqField, hu, hrole,
    hstu, hnew, hup, hkeys, hold]

/-- Witness for C4: the student archiving their own pending interest is
accepted. -/
theorem bookingInterest_student_archival_witness :
    bookingUpdateAllowed ctxStudent7 [] sampleInterestPending
      sampleInterestPendingArchived = true :=
  (bookingInterest_student_archival ctxStudent7 [] sampleInterestPending
    sampleInterestPendingArchived "stu1" "pending" rfl (by decide) (by decide)
    (by decide) (by decide) (by decide) (by decide)).mpr (by decide)

/-- C5: whenever an accepted enrollment update changes `isActive`, the
stored value was `true`, the submitted value is `false`, the requester is
the enrollment's student, `actualCheckoutDate` is stamped to the request
time and the diff is confined to `{isActive, actualCheckoutDate}` — so a
`false → true` flip is never accepted and the landlord path never touches
`isActive`. -/
theorem enrollment_isActive_only_true_to_false (ctx : RuleCtx)
    (oldD newD : Doc) (h : enrollmentUpdateAllowed ctx oldD newD = true)
    (hne : lookupF newD "isActive" ≠ lookupF oldD "isActive") :
    lookupF oldD "isActive" = some (.boolV true)
    ∧ lookupF newD "isActive" = some (.boolV false)
    ∧ (∃ u, ctx.authUid = some u ∧ lookupF oldD "studentId" = some (.str u))
    ∧ lookupF newD "actualCheckoutDate" = some (.ts ctx.time)
    ∧ hasOnly (affectedKeys newD oldD)
        ["isActive", "actualCheckoutDate"] = true := by
  simp only [enrollmentUpdateAllowed, Bool.and_eq_true, Bool.or_eq_true] at h
  obtain ⟨-, hcases⟩ := h
  rcases hcases with h1 | h2
  · exfalso
    have hmem := mem_affectedKeys_of_ne hne
    have hin := hasOnly_mem h1.2 hmem
    simp at hin
  · obtain ⟨⟨⟨⟨hstu, hold⟩, hnew⟩, hack⟩, hkeys⟩ := h2
    rw [beq_iff_eq] at hold hnew hack
    refine ⟨hold, hnew, ?_, hack, hkeys⟩
    cases hau : ctx.authUid with
    | none => simp [uidEqField, hau] at hstu
    | some u =>
      refine ⟨u, rfl, ?_⟩
      simpa [uidEqField, hau, beq_iff_eq] using hstu

/-- Witness for C5: the student's own checkout (`isActive` true → false
with a stamped `actualCheckoutDate`) is accepted and the theorem applies
to it. -/
theorem enrollment_isActive_only_true_to_false_witness :
    lookupF sampleEnrollment "isActive" = some (.boolV true)
    ∧ lookupF sampleEnrollmentCheckedOut "isActive" = some (.boolV false)
    ∧ (∃ u, ctxStudent7.authUid = some u
        ∧ lookupF sampleEnrollment "studentId" = some (.str u))
    ∧ lookupF sampleEnrollmentCheckedOut "actualCheckoutDate"
        = some (.ts ctxStudent7.time)
    ∧ hasOnly (affectedKeys sampleEnrollmentCheckedOut sampleEnrollment)
        ["isActive", "actualCheckoutDate"] = true :=
  enrollment_isActive_only_true_to_false ctxStudent7 sampleEnrollment
    sampleEnrollmentCheckedOut (by decide) (by decide)

/-- C6 counterexample: the claim that an accepted property creation must
carry a fixed valid-field set including FIVE zero-initialized counters is
false — the create rule has no `keys().hasOnly` clause, so a payload
carrying an unrelated extra field is accepted, and only FOUR fields are
required to be zero (`viewCount`, `interestedCount`, `averageRating`,
`enrolledStudentsCount`). -/
theorem propertyCreate_field_set_counterexample :
    propertyCreateAllowed ctxLandlord9 samplePropCreatePayload = true
    ∧ "extraField" ∈ docKeys samplePropCreatePayload
    ∧ (docKeys samplePropCreatePayload).filter
        (fun k => lookupF samplePropCreatePayload k == some (.num 0))
        = ["viewCount", "interestedCount", "averageRating",
           "enrolledStudentsCount"] := by decide

/-- C6 (amended): property creation is allowed only for a requester with
the landlord role — a student's create is rejected regardless of payload —
and every accepted payload has the four counter fields zero-initialized and
`createdAt`/`updatedAt` equal to the request time (the key set itself is
not constrained). -/
theorem propertyCreate_landlord_counters (ctx : RuleCtx) (d : Doc) :
    (propertyCreateAllowed ctx d = true →
      ctx.userRole = some "landlord"
      ∧ lookupF d "viewCount" = some (.num 0)
      ∧ lookupF d "interestedCount" = some (.num 0)
      ∧ lookupF d "averageRating" = some (.num 0)
      ∧ lookupF d "enrolledStudentsCount" = some (.num 0)
      ∧ lookupF d "createdAt" = some (.ts ctx.time)
      ∧ lookupF d "updatedAt" = some (.ts ctx.time))
    ∧ (ctx.userRole = some "student" → propertyCreateAllowed ctx d = false) := by
  constructor
  · intro h
    simp only [propertyCreateAllowed, isValidPropertyDataForCreate, hasRole,
      Bool.and_eq_true, beq_iff_eq] at h
    obtain ⟨⟨-, hrole⟩, hv⟩ := h
    obtain ⟨⟨⟨⟨⟨⟨-, hvc⟩, hic⟩, har⟩, hesc⟩, hca⟩, hua⟩ := hv
    exact ⟨hrole, hvc, hic, har, hesc, hca, hua⟩
  · intro hs
    simp [propertyCreateAllowed, hasRole, hs]

/-- Witness for the amended C6: the landlord's valid payload is accepted
(and satisfies the conclusions), and the same payload submitted under the
student role is rejected. -/
theorem propertyCreate_landlord_counters_witness :
    (ctxLandlord9.userRole = some "landlord"
      ∧ lookupF samplePropCreatePayload "viewCount" = some (.num 0)
      ∧ lookupF samplePropCreatePayload "interestedCount" = some (.num 0)
      ∧ lookupF samplePropCreatePayload "averageRating" = some (.num 0)
      ∧ lookupF samplePropCreatePayload "enrolledStudentsCount" = some (.num 0)
      ∧ lookupF samplePropCreatePayload "createdAt" = some (.ts ctxLandlord9.time)
      ∧ lookupF samplePropCreatePayload "updatedAt" = some (.ts ctxLandlord9.time))
    ∧ propertyCreateAllowed ⟨some "L1", some "student", 9⟩
        samplePropCreatePayload = false :=
  ⟨(propertyCreate_landlord_counters ctxLandlord9 samplePropCreatePayload).1
      (by decide),
   (propertyCreate_landlord_counters ⟨some "L1", some "student", 9⟩
      samplePropCreatePayload).2 rfl⟩

/-- C7: duplicate-review prevention lives in `addReview`, not in the rule
set — for every call where a review with the same `studentId` and
`propertyId` exists, `addReview` throws and adds nothing, while the
review-create rule (which reads no other review) accepts a create whose
`(studentId, propertyId)` pair collides with an existing review. -/
theorem addReview_duplicate_and_rule_gap :
    (∀ (rs : List ReviewDoc) (inp : ReviewInput) (now : Nat),
       inp.studentId ≠ "" → inp.propertyId ≠ "" →
       (∃ r ∈ rs, r.propertyId = inp.propertyId ∧ r.studentId = inp.studentId) →
       addReview rs inp now
         = Except.error "You have already reviewed this property.")
    ∧ (∃ r ∈ sampleExistingReviews, r.studentId = "stu1" ∧ r.propertyId = "p1")
    ∧ lookupF sampleDupReviewPayload "studentId" = some (.str "stu1")
    ∧ lookupF sampleDupReviewPayload "propertyId" = some (.str "p1")
    ∧ reviewCreateAllowed ⟨some "stu1", some "student", 7⟩
        sampleDupReviewPayload = true := by
  refine ⟨?_, by decide, by decide, by decide, by decide⟩
  rintro rs inp now h1 h2 ⟨r, hr, hp, hs⟩
  rw [addReview, if_neg, if_pos]
  · exact List.any_eq_true.mpr ⟨r, hr, by simp [hp, hs]⟩
  · simp [h1, h2]

/-- Witness for C7: the duplicate submission against the sample collection
throws the duplicate error. -/
theorem addReview_duplicate_and_rule_gap_witness :
    addReview sampleExistingReviews sampleDupReviewInput 7
      = Except.error "You have already reviewed this property." :=
  addReview_duplicate_and_rule_gap.1 sampleExistingReviews sampleDupReviewInput
    7 (by decide) (by decide)
    ⟨⟨"stu1", "p1", "Ann", 4, "Nice place", 3⟩, by decide, by decide, by decide⟩

/-- Witness for C10, first part: reading property `p1` of the sample store
bumps its view count from 3 to 4. -/
theorem getPropertyById_increments_viewCount_witness :
    ∃ d', getPropertyById sampleStore "p1" 7 = (setDocS sampleStore "p1" d', some d')
      ∧ lookupF d' "viewCount" = some (.num (3 + 1))
      ∧ lookupF d' "updatedAt" = some (.ts 7)
      ∧ (∀ k, k ≠ "viewCount" → k ≠ "updatedAt" →
          lookupF d' k = lookupF sampleProp k)
      ∧ (∀ id2, id2 ≠ "p1" →
          getDocS (setDocS sampleStore "p1" d') id2 = getDocS sampleStore id2)
      ∧ getPropertyByIdSkipViewCount sampleStore "p1" = some sampleProp :=
  getPropertyById_increments_viewCount.1 sampleStore "p1" 7 sampleProp 3
    (by decide) (by decide) (by decide)

end UniNest
